import Mathlib

/-!
Shallow embedding of the tailchat-meeting `RoomClient` (src/app/src/RoomClient.ts)
and proofs about the claims of its specification.

JavaScript numbers are modelled as rationals (all the arithmetic the claims
exercise — `max`, powers of two, multiplication and division by powers of two
and by small constants — is exact in binary64, so the rational model is
faithful on every input the theorems touch).  Store dispatches are modelled
either as explicit state fields or as recorded action lists.
-/

namespace RoomClient

/-! ## Signaling session: `timeoutCallback`, `_sendRequest`, `sendRequest`
(RoomClient.ts lines 824-913).

One call to `_sendRequest` is modelled by its observable outcome: the ack
callback wrapped in `timeoutCallback` either fires with a `SocketTimeoutError`
after `config.requestTimeout` ms, fires with some other error `err`, or fires
with a response value. -/

/-- Outcome of a single `_sendRequest` attempt, as decided by the underlying
`signalingSocket.emit` ack wrapped in `timeoutCallback`. -/
inductive AttemptOutcome (α : Type) where
  | timeout
  | failure (msg : String)
  | success (value : α)
deriving DecidableEq, Repr

/-- Result of `sendRequest` as observed by its caller: the returned promise
either resolves (possibly with `undefined`, modelled as `none`, when the
`for` loop falls off its end) or rejects with a timeout or another error. -/
inductive RequestResult (α : Type) where
  | resolved (value : Option α)
  | rejectedTimeout
  | rejectedError (msg : String)
deriving DecidableEq, Repr

/-- The `for (let tries = 0; tries < config.requestRetries; tries++)` loop of
`sendRequest` (RoomClient.ts lines 895-913), with `attempts i` the outcome of
the `i`-th `_sendRequest` call.  On `success` the loop returns the response;
in the `catch`, when the error is a `SocketTimeoutError` and
`tries < config.requestRetries` (the exact guard of the source, which is
always true inside the loop) it only logs and continues, otherwise it
rethrows.  After the loop the function returns `undefined`.
Also returns the number of attempts made. -/
def sendRequestLoop (retries : Nat) (attempts : Nat → AttemptOutcome α) :
    (remaining tries : Nat) → RequestResult α × Nat
  | 0, tries => (.resolved none, tries)
  | remaining + 1, tries =>
    match attempts tries with
    | .success v => (.resolved (some v), tries + 1)
    | .timeout =>
        if tries < retries then
          sendRequestLoop retries attempts remaining (tries + 1)
        else (.rejectedTimeout, tries + 1)
    | .failure msg => (.rejectedError msg, tries + 1)

/-- `sendRequest(method, data)`: run the retry loop from `tries = 0`; the
loop guard `tries < retries` is encoded by the fuel `remaining = retries`. -/
def sendRequest (retries : Nat) (attempts : Nat → AttemptOutcome α) :
    RequestResult α × Nat :=
  sendRequestLoop retries attempts retries 0

/-! ## `getResolutionScalings` (RoomClient.ts lines 129-172) -/

/-- One element of the `encodings` array passed to `getResolutionScalings`. -/
structure Encoding where
  scalabilityMode : Option String := none
  scaleResolutionDownBy : Option ℚ := none
deriving DecidableEq, Repr

/-- Result of `mediasoupClient.parseScalabilityMode`. -/
structure ScalabilityMode where
  spatialLayers : Nat
  temporalLayers : Nat
deriving DecidableEq, Repr

/-- Reads one or two decimal digits, the first nonzero — the group
`([1-9]\d\x7b0,1\x7d)` of the mediasoup-client scalability-mode regular
expression — and returns the parsed number with the remaining characters. -/
def parseLayerCount : List Char → Option (Nat × List Char)
  | c :: rest =>
    if '1' ≤ c ∧ c ≤ '9' then
      match rest with
      | d :: rest2 =>
        if d.isDigit then
          some ((c.toNat - '0'.toNat) * 10 + (d.toNat - '0'.toNat), rest2)
        else
          some (c.toNat - '0'.toNat, rest)
      | [] => some (c.toNat - '0'.toNat, [])
    else none
  | [] => none

/-- Modelled external dependency `mediasoupClient.parseScalabilityMode`:
matches the scalability-mode string against
`^[LS]([1-9]\d\x7b0,1\x7d)T([1-9]\d\x7b0,1\x7d)` (trailing characters such as
`_KEY` are ignored) and falls back to one spatial and one temporal layer when
the string is absent or does not match. -/
def parseScalabilityMode (s : Option String) : ScalabilityMode :=
  match s with
  | none => ⟨1, 1⟩
  | some str =>
    match str.toList with
    | c :: rest =>
      if c = 'L' ∨ c = 'S' then
        match parseLayerCount rest with
        | some (sl, rest1) =>
          match rest1 with
          | 'T' :: rest2 =>
            match parseLayerCount rest2 with
            | some (tl, _) => ⟨sl, tl⟩
            | none => ⟨1, 1⟩
          | _ => ⟨1, 1⟩
        | none => ⟨1, 1⟩
      else ⟨1, 1⟩
    | [] => ⟨1, 1⟩

/-- `getResolutionScalings(encodings)` (RoomClient.ts lines 129-172).
A single encoding is the SVC case: the spatial-layer count `L` is parsed from
`encodings[0].scalabilityMode` and the loop pushes `2 ** (L - i - 1)`.
Otherwise the `forEach` pushes `Math.max(1.0, scaleResolutionDownBy)` when the
attribute is defined and `1.0` when it is not, and when no encoding defined it
the final loop overwrites entry `index` with
`2 ** (encodings.length - index - 1)`. -/
def getResolutionScalings (encodings : List Encoding) : List ℚ :=
  match encodings with
  | [e] =>
    let L := (parseScalabilityMode e.scalabilityMode).spatialLayers
    (List.range L).map (fun i => (2 : ℚ) ^ (L - i - 1))
  | _ =>
    let scaleResolutionDownByDefined :=
      encodings.any (fun e => e.scaleResolutionDownBy.isSome)
    let resolutionScalings := encodings.map (fun e =>
      match e.scaleResolutionDownBy with
      | some v => max 1 v
      | none => (1 : ℚ))
    if !scaleResolutionDownByDefined then
      (List.range encodings.length).map
        (fun i => (2 : ℚ) ^ (encodings.length - i - 1))
    else
      resolutionScalings

/-- The resolution-scaling algorithm as the specification words it: a
single-encoding input yields the powers `2^(L-1), …, 2^0` for its parsed
spatial-layer count `L`; otherwise, when at least one encoding defines
`scaleResolutionDownBy`, each encoding contributes
`max(1.0, scaleResolutionDownBy)` with undefined entries becoming `1.0`, and
when none defines it the result is `2^(N-1), …, 2^0` for `N` encodings. -/
def resolutionScalingsClaimed (encodings : List Encoding) : List ℚ :=
  match encodings with
  | [e] =>
    let L := (parseScalabilityMode e.scalabilityMode).spatialLayers
    (List.range L).map (fun i => (2 : ℚ) ^ (L - i - 1))
  | _ =>
    if encodings.any (fun e => e.scaleResolutionDownBy.isSome) then
      encodings.map (fun e =>
        match e.scaleResolutionDownBy with
        | some v => max 1 v
        | none => (1 : ℚ))
    else
      (List.range encodings.length).map
        (fun i => (2 : ℚ) ^ (encodings.length - i - 1))

/-! ## `adaptConsumerPreferredLayers` (RoomClient.ts lines 2249-2327) and
`setConsumerPreferredLayers` (lines 2141-2172) -/

/-- The fields of a store consumer that `adaptConsumerPreferredLayers`
reads (RoomClient.ts lines 2257-2264; populated at lines 3093-3114). -/
structure ConsumerInfo where
  id : String
  type : String
  preferredSpatialLayer : ℤ
  preferredTemporalLayer : ℤ
  width : ℚ
  height : ℚ
  resolutionScalings : List ℚ
  temporalLayers : ℤ
deriving DecidableEq, Repr

/-- `Math.min(Math.max(config.adaptiveScalingFactor || 0.75, 0.5), 1.0)`
(RoomClient.ts lines 2265-2268); `cfg = none` is an absent option and the
JavaScript `||` also replaces a configured `0` by the default. -/
def adaptiveScalingFactor (cfg : Option ℚ) : ℚ :=
  let base := match cfg with
    | some v => if v = 0 then (3 / 4 : ℚ) else v
    | none => (3 / 4 : ℚ)
  min (max base (1 / 2)) 1

/-- Whether viewport `(vw, vh)` reaches the spatial level whose resolution
scaling is `r`: the condition
`viewportWidth >= levelWidth || viewportHeight >= levelHeight` with
`levelWidth = adaptiveScalingFactor * width / r` (RoomClient.ts 2282-2292). -/
def levelReached (F w h vw vh r : ℚ) : Prop :=
  vw ≥ F * w / r ∨ vh ≥ F * h / r

instance (F w h vw vh r : ℚ) : Decidable (levelReached F w h vw vh r) := by
  unfold levelReached; infer_instance

/-- The `for` loop of RoomClient.ts lines 2282-2292: walk the
`resolutionScalings` from index 0, record the index in
`newPreferredSpatialLayer` while the level condition holds, `break` at the
first index where it fails.  `i` is the next index, `cur` the value recorded
so far (initially 0). -/
def chooseSpatialLoop (F w h vw vh : ℚ) : List ℚ → Nat → Nat → Nat
  | [], _, cur => cur
  | r :: rest, i, cur =>
    if levelReached F w h vw vh r then
      chooseSpatialLoop F w h vw vh rest (i + 1) i
    else cur

/-- The temporal-layer selection of RoomClient.ts lines 2294-2314: start at
`temporalLayers - 1`; when the new spatial layer is 0 and that start is
positive, drop by one if the viewport is below half of the lowest spatial
level in both dimensions, and once more (while still positive) if below a
quarter in both.  An empty `resolutionScalings` leaves the start value: in
the source both comparisons against `NaN` are false. -/
def chooseTemporal (spatial : Nat) (temporalLayers : ℤ) (w h vw vh : ℚ)
    (rs : List ℚ) : ℤ :=
  let t := temporalLayers - 1
  if spatial = 0 ∧ t > 0 then
    match rs.head? with
    | none => t
    | some r0 =>
      let lw := w / r0
      let lh := h / r0
      let t1 := if vw < lw * (1 / 2) ∧ vh < lh * (1 / 2) then t - 1 else t
      if t1 > 0 ∧ vw < lw * (1 / 4) ∧ vh < lh * (1 / 4) then t1 - 1 else t1
  else t

/-- A `setConsumerPreferedLayers` signaling request, as issued by
`setConsumerPreferredLayers` (RoomClient.ts lines 2141-2172). -/
structure LayersRequest where
  consumerId : String
  spatialLayer : Nat
  temporalLayer : ℤ
deriving DecidableEq, Repr

/-- `adaptConsumerPreferredLayers(consumer, viewportWidth, viewportHeight)`
(RoomClient.ts lines 2249-2327): no-op for `simple` consumers and for falsy
viewport dimensions; otherwise choose the new spatial and temporal layers and
call `setConsumerPreferredLayers` — issuing the `setConsumerPreferedLayers`
request — exactly when the pair differs from the consumer's current preferred
pair.  The returned value is the issued request, `none` when no request is
sent. -/
def adaptConsumerPreferredLayers (cfg : Option ℚ) (c : ConsumerInfo)
    (vw vh : ℚ) : Option LayersRequest :=
  if c.type = "simple" then none
  else if vw = 0 ∨ vh = 0 then none
  else
    let F := adaptiveScalingFactor cfg
    let s := chooseSpatialLoop F c.width c.height vw vh c.resolutionScalings 0 0
    let t := chooseTemporal s c.temporalLayers c.width c.height vw vh
      c.resolutionScalings
    if c.preferredSpatialLayer ≠ (s : ℤ) ∨ c.preferredTemporalLayer ≠ t then
      some ⟨c.id, s, t⟩
    else none

/-- The spatial-layer selection rule as the claim words it: the largest index
`i` such that the viewport reaches level `i`, taking 0 when no index
qualifies. -/
def largestReachedIndex (F w h vw vh : ℚ) (rs : List ℚ) : Nat :=
  (List.range rs.length).foldl
    (fun acc i =>
      if levelReached F w h vw vh (rs.getD i 0) then i else acc) 0

/-- The spatial-layer selection the loop actually computes: one less than the
length of the longest reached leading segment of `resolutionScalings`
(0 when the very first level is not reached). -/
def leadingReachedIndex (F w h vw vh : ℚ) (rs : List ℚ) : Nat :=
  (rs.takeWhile (fun r => decide (levelReached F w h vw vh r))).length - 1

/-! ## `close` (RoomClient.ts lines 468-492) and the signaling `disconnect`
handler (lines 2416-2496).

The store slices (`roomActions`, `producersActions`, `peersActions`,
`consumersActions`) are repository code outside `src/`; they are modelled
from the spec: the Reactive Store Bridge applies each dispatched state delta
atomically, so `setRoomState s` sets the room state to `s`,
`removeProducer id` removes that producer, and the `clear*` actions empty
the corresponding collections. -/

/-- A mediasoup transport as far as `close` and the `disconnect` handler
observe it: closing an already closed transport is a no-op. -/
structure TransportRef where
  id : String
  closed : Bool
deriving DecidableEq, Repr

/-- The part of the `RoomClient` instance and of the store that `close()`
and the signaling `disconnect` handler read and write.  `notifications`
records the ids of the `notifyAction` dispatches in order;
`navigationRequested` records the `window.location` assignment at the end of
`close()` (which does not stop the currently running handler). -/
structure ClientState where
  closed : Bool
  socketClosed : Bool
  micProducer : Option String
  webcamProducer : Option String
  screenSharingProducer : Option String
  extraVideoProducers : List String
  sendTransport : Option TransportRef
  recvTransport : Option TransportRef
  storeProducers : List String
  storePeers : List String
  storeConsumerIds : List String
  spotlights : List String
  roomState : String
  notifications : List String
  navigationRequested : Bool
deriving DecidableEq, Repr

/-- `close()` (RoomClient.ts lines 468-492): return immediately when already
closed; otherwise set `_closed`, close the signaling socket, close each
non-null transport (the fields keep their references), dispatch room state
`closed`, and request the page navigation / reload. -/
def close (s : ClientState) : ClientState :=
  if s.closed then s
  else
    { s with
      closed := true
      socketClosed := true
      sendTransport := s.sendTransport.map (fun t => { t with closed := true })
      recvTransport := s.recvTransport.map (fun t => { t with closed := true })
      roomState := "closed"
      navigationRequested := true }

/-- The signaling `disconnect` handler registered in `join` (RoomClient.ts
lines 2416-2496): return when `_closed`; when the reason is
`io server disconnect`, notify and call `close()` — with no `return`, so the
handler continues; then notify about reconnecting, close and remove the
screen-sharing, webcam, extra-video and mic producers, close and null both
transports, clear spotlights, peers and consumers, and dispatch room state
`connecting`. -/
def onDisconnect (s : ClientState) (reason : String) : ClientState :=
  if s.closed then s
  else
    let s1 :=
      if reason = "io server disconnect" then
        close { s with notifications := s.notifications ++ ["socket.disconnected"] }
      else s
    let s2 := { s1 with notifications := s1.notifications ++ ["socket.reconnecting"] }
    let s3 := { s2 with
      screenSharingProducer := none
      webcamProducer := none
      extraVideoProducers := []
      micProducer := none
      storeProducers := s2.storeProducers.filter (fun id =>
        !(some id = s2.screenSharingProducer ∨ some id = s2.webcamProducer ∨
          id ∈ s2.extraVideoProducers ∨ some id = s2.micProducer))
      sendTransport := none
      recvTransport := none }
    { s3 with
      spotlights := []
      storePeers := []
      storeConsumerIds := []
      roomState := "connecting" }

/-! ## Consumer registry: `_pauseConsumer` / `_resumeConsumer`
(RoomClient.ts lines 2029-2082), `updateSpotlights` (lines 1152-1173) and
`modifyPeerConsumer` (lines 1955-1997).

The consumers store slice is repository code outside `src/`; it is modelled
from the spec: a Consumer carries a `locallyPaused` flag, and the
`setConsumerPaused` / `setConsumerResumed` dispatches with originator
`local` set and clear it.  The model keeps the success path: every
`pauseConsumer` / `resumeConsumer` signaling request succeeds, and all
consumers in the registry are live (closed consumers are removed by
`_closeConsumer`). -/

/-- A consumer as seen by the registry operations: `paused` is the local
mediasoup-client consumer state toggled by `consumer.pause()` /
`consumer.resume()`, `locallyPaused` the store field. -/
structure StoreConsumer where
  id : String
  peerId : String
  kind : String
  source : String
  paused : Bool
  locallyPaused : Bool
deriving DecidableEq, Repr

/-- `_pauseConsumer(consumer)` on the success path (RoomClient.ts lines
2029-2055): return unchanged when already paused (or closed); otherwise send
`pauseConsumer`, call `consumer.pause()` and dispatch `setConsumerPaused`
with originator `local`. -/
def pauseConsumerOp (c : StoreConsumer) : StoreConsumer :=
  if c.paused then c else { c with paused := true, locallyPaused := true }

/-- `_resumeConsumer(consumer)` with `initial = false` on the success path
(RoomClient.ts lines 2057-2081): return unchanged when not paused (or
closed); otherwise call `consumer.resume()`, send `resumeConsumer` and
dispatch `setConsumerResumed` with originator `local`. -/
def resumeConsumerOp (c : StoreConsumer) : StoreConsumer :=
  if !c.paused then c else { c with paused := false, locallyPaused := false }

/-- The consumer-registry state touched by `updateSpotlights` and
`modifyPeerConsumer`: the `_consumers` map (with its store mirror),
`room.spotlights` and `room.selectedPeers`. -/
structure RegistryState where
  consumers : List StoreConsumer
  spotlights : List String
  selectedPeers : List String
deriving DecidableEq, Repr

/-- `updateSpotlights(spotlights)` on the success path (RoomClient.ts lines
1152-1173): dispatch the new spotlights, then for every video consumer
resume it when its peer is in the new list and otherwise pause it and
dispatch `removeSelectedPeer` for its peer. -/
def updateSpotlights (s : RegistryState) (sl : List String) : RegistryState :=
  { consumers := s.consumers.map (fun c =>
      if c.kind = "video" then
        if c.peerId ∈ sl then resumeConsumerOp c else pauseConsumerOp c
      else c)
    spotlights := sl
    selectedPeers := s.selectedPeers.filter (fun p =>
      !(p ∉ sl ∧ s.consumers.any (fun c => c.kind = "video" ∧ c.peerId = p))) }

/-- `modifyPeerConsumer(peerId, type, mute)` on the success path
(RoomClient.ts lines 1955-1997): pause (when `mute`) or resume every
consumer of the given peer whose source is the given type. -/
def modifyPeerConsumer (s : RegistryState) (peerId type : String)
    (mute : Bool) : RegistryState :=
  { s with consumers := s.consumers.map (fun c =>
      if c.peerId = peerId ∧ c.source = type then
        if mute then pauseConsumerOp c else resumeConsumerOp c
      else c) }

/-! ## `restartIce` (RoomClient.ts lines 2174-2225)

`restartIce(transport, ice, delay)` clears the pending timer and schedules,
after `delay` ms, an async callback which: returns if `ice.restarting` is
already set; otherwise sets the flag, awaits a `restartIce` signaling request
and `transport.restartIce(...)`, and clears the flag on success; in the
`catch` it clears the flag and sets a timer which after `delay` ms calls
`restartIce(transport, ice, delay * 2)` again.

The model is a small event loop over the single timer slot `ice.timer`: a
scheduled entry is either the attempt callback of a `restartIce` call (with
its `delay` parameter) or the catch-branch callback re-invoking `restartIce`
with the doubled delay.  Time is in milliseconds; `requests` records the
instants at which a `restartIce` signaling request is issued to the SFU. -/

/-- A callback sitting in `ice.timer`. -/
inductive TimerTask where
  | attempt (delay : ℕ)
  | rescheduleCall (delay : ℕ)
deriving DecidableEq, Repr

/-- The per-transport ICE-restart state: current time, the single timer slot
(absolute fire time and callback), the `ice.restarting` flag, the in-flight
restart if any (holding the `delay` parameter of the attempt that issued it),
and the log of issued `restartIce` requests. -/
structure IceState where
  now : ℕ
  timer : Option (ℕ × TimerTask)
  restarting : Bool
  pendingDelay : Option ℕ
  requests : List ℕ
deriving DecidableEq, Repr

/-- A call `restartIce(transport, ice, delay)` (RoomClient.ts lines
2196-2198 and 2225): `clearTimeout(ice.timer)` then
`ice.timer = setTimeout(attempt, delay)`. -/
def callRestartIce (s : IceState) (delay : ℕ) : IceState :=
  { s with timer := some (s.now + delay, .attempt delay) }

/-- The timer slot fires (no-op when empty).  An `attempt delay` callback
(RoomClient.ts lines 2199-2211) returns at once when `ice.restarting` is
set; otherwise it sets the flag and issues the `restartIce` signaling
request, which stays in flight.  A `rescheduleCall delay` callback
(lines 2216-2218) is `restartIce(transport, ice, delay * 2)`. -/
def fireTimer (s : IceState) : IceState :=
  match s.timer with
  | none => s
  | some (t, task) =>
    let s1 := { s with now := t, timer := none }
    match task with
    | .attempt d =>
      if s1.restarting then s1
      else { s1 with
        restarting := true
        requests := s1.requests ++ [s1.now]
        pendingDelay := some d }
    | .rescheduleCall d => callRestartIce s1 (d * 2)

/-- The in-flight restart settles `elapsed` ms after it was issued (covering
both the `restartIce` signaling request and `transport.restartIce`).  On
success the flag is cleared (RoomClient.ts line 2210); in the `catch`
(lines 2212-2219) the flag is cleared and
`ice.timer = setTimeout(() => restartIce(transport, ice, delay * 2), delay)`
is set with the attempt's `delay`. -/
def settleRestart (s : IceState) (elapsed : ℕ) (ok : Bool) : IceState :=
  match s.pendingDelay with
  | none => s
  | some d =>
    let s1 := { s with
      now := s.now + elapsed
      pendingDelay := none
      restarting := false }
    if ok then s1
    else { s1 with timer := some (s1.now + d, .rescheduleCall d) }

/-- The `restarting` flag covers every in-flight restart. -/
def FlagCovers (s : IceState) : Prop :=
  s.pendingDelay.isSome → s.restarting = true

instance (s : IceState) : Decidable (FlagCovers s) := by
  unfold FlagCovers; infer_instance

/-! ## `updateMic` (RoomClient.ts lines 1293-1471)

The operation is modelled by its control flow, with the external effects
recorded as an action list and the environment (device capability, device
lookup, `getUserMedia`, `produce`) given as an oracle.  Store dispatches to
slices outside `src/` are modelled from the spec as recorded deltas. -/

/-- A local mic producer (mediasoup-client `Producer`): its id and local
paused state. -/
structure MicProducer where
  id : String
  paused : Bool
deriving DecidableEq, Repr

/-- Externally observable steps of `updateMic`, in program order. -/
inductive MicAction where
  | dispatchSelectedAudioDevice (deviceId : String)
  | setAudioInProgress (flag : Bool)
  | disconnectHark
  | disableMicCall
  | getUserMediaCall
  | produceCall
  | addProducerDispatch (id : String)
  | connectHark
  | muteMicCall
  | unmuteMicCall
  | applyConstraintsCall
  | updateAudioDevicesCall
  | notifyError (messageId : String)
  | trackStop
deriving DecidableEq, Repr

/-- The environment `updateMic` runs against:
`canProduceAudio` is `_mediasoupDevice.canProduce('audio')`; `audioDevice`
is the device found by `_getAudioDeviceId` in `_audioDevices` (`none` means
no device); `gumTrack` is the track delivered by
`navigator.mediaDevices.getUserMedia` (`none` means it throws);
`produced` is the producer returned by `_sendTransport.produce` (`none`
means it throws). -/
structure MicEnv where
  canProduceAudio : Bool
  audioDevice : Option String
  gumTrack : Option String
  produced : Option MicProducer
deriving DecidableEq, Repr

/-- The `try` block of `updateMic({start, restart, newDeviceId})`
(RoomClient.ts lines 1303-1452), returning the new mic-producer field, the
recorded actions, the thrown error message (`none` when the block completes)
and the `track` variable visible to the `catch` block.  Control flow of the
source: capability check, the `changing device requires restart` check,
the `selectedAudioDevice` dispatch for a non-null `newDeviceId`,
`setAudioInProgress(true)`, device lookup, then either the
produce-a-new-track branch (taken when `restart && this._micProducer` or
`start`), the `applyConstraints` branch (existing producer), or nothing,
and finally `_updateAudioDevices`. -/
def updateMicTry (env : MicEnv) (start restart : Bool)
    (newDeviceId : Option String) (mic : Option MicProducer) :
    Option MicProducer × List MicAction × Option String × Option String :=
  if !env.canProduceAudio then
    (mic, [], some "cannot produce audio", none)
  else if (newDeviceId.getD "" ≠ "") ∧ !restart then
    (mic, [], some "changing device requires restart", none)
  else
    let acts0 := match newDeviceId with
      | some d => [MicAction.dispatchSelectedAudioDevice d]
      | none => []
    let acts1 := acts0 ++ [.setAudioInProgress true]
    match env.audioDevice with
    | none => (mic, acts1, some "no audio devices", none)
    | some _ =>
      if (restart ∧ mic.isSome) ∨ start then
        let acts2 := acts1 ++ [.disconnectHark]
        let muted := match mic with
          | some p => p.paused
          | none => false
        let (mic2, acts3) := match mic with
          | some _ => ((none : Option MicProducer), acts2 ++ [MicAction.disableMicCall])
          | none => (mic, acts2)
        let acts4 := acts3 ++ [MicAction.getUserMediaCall]
        match env.gumTrack with
        | none => (mic2, acts4, some "getUserMedia failed", none)
        | some track =>
          let acts5 := acts4 ++ [MicAction.produceCall]
          match env.produced with
          | none => (mic2, acts5, some "produce failed", some track)
          | some p =>
            let acts6 := acts5 ++
              [MicAction.addProducerDispatch p.id, MicAction.connectHark,
               if muted then MicAction.muteMicCall else MicAction.unmuteMicCall,
               MicAction.updateAudioDevicesCall]
            (some p, acts6, none, some track)
      else
        match mic with
        | some _ =>
          (mic, acts1 ++ [.applyConstraintsCall, .updateAudioDevicesCall],
           none, none)
        | none => (mic, acts1 ++ [.updateAudioDevicesCall], none, none)

/-- `updateMic` including its `catch` and the trailing
`setAudioInProgress(false)` (RoomClient.ts lines 1453-1471): any error from
the `try` block is caught at the boundary — a `devices.microphoneError`
notification is surfaced, the acquired track (if any) is stopped, and
nothing is rethrown.  Returns the mic-producer field, the action list and
the caught error. -/
def updateMic (env : MicEnv) (start restart : Bool)
    (newDeviceId : Option String) (mic : Option MicProducer) :
    Option MicProducer × List MicAction × Option String :=
  let (mic1, acts, err, track) := updateMicTry env start restart newDeviceId mic
  match err with
  | none => (mic1, acts ++ [.setAudioInProgress false], none)
  | some e =>
    let acts1 := acts ++ [.notifyError "devices.microphoneError"] ++
      (match track with
       | some _ => [MicAction.trackStop]
       | none => []) ++ [.setAudioInProgress false]
    (mic1, acts1, some e)

/-! ## `muteMic` / `unmuteMic` (RoomClient.ts lines 1083-1143) -/

/-- Externally observable steps of `muteMic` / `unmuteMic`. -/
inductive MuteAction where
  | requestPauseProducer (id : String)
  | requestResumeProducer (id : String)
  | dispatchProducerPaused (id : String)
  | dispatchProducerResumed (id : String)
  | dispatchAudioMuted (flag : Bool)
  | notifyError (messageId : String)
  | callUpdateMicStart
deriving DecidableEq, Repr

/-- The state `muteMic` / `unmuteMic` touch: the `_micProducer` field and the
`settings.audioMuted` flag. -/
structure MuteState where
  micProducer : Option MicProducer
  audioMuted : Bool
deriving DecidableEq, Repr

/-- `muteMic()` (RoomClient.ts lines 1083-1110) for a present producer:
`this._micProducer.pause()` first, then the `pauseProducer` request —
`reqOk` tells whether it succeeds; on success dispatch `setProducerPaused`
and `audioMuted = true`, on failure surface the mute-error notification.
(With no producer the source crashes on the `pause()` call; this model is
only invoked with a producer present.) -/
def muteMic (reqOk : Bool) (s : MuteState) : MuteState × List MuteAction :=
  match s.micProducer with
  | none => (s, [])
  | some p =>
    let s1 := { s with micProducer := some { p with paused := true } }
    if reqOk then
      ({ s1 with audioMuted := true },
       [.requestPauseProducer p.id, .dispatchProducerPaused p.id,
        .dispatchAudioMuted true])
    else
      (s1, [.requestPauseProducer p.id,
            .notifyError "devices.microphoneMuteError"])

/-- `unmuteMic()` (RoomClient.ts lines 1112-1143): with no mic producer,
delegate to `updateMic({start: true})`; otherwise `resume()` the producer
first, then the `resumeProducer` request; on success dispatch
`setProducerResumed` and `audioMuted = false`, on failure surface the
unmute-error notification. -/
def unmuteMic (reqOk : Bool) (s : MuteState) : MuteState × List MuteAction :=
  match s.micProducer with
  | none => (s, [.callUpdateMicStart])
  | some p =>
    let s1 := { s with micProducer := some { p with paused := false } }
    if reqOk then
      ({ s1 with audioMuted := false },
       [.requestResumeProducer p.id, .dispatchProducerResumed p.id,
        .dispatchAudioMuted false])
    else
      (s1, [.requestResumeProducer p.id,
            .notifyError "devices.microphoneUnMuteError"])

/-! ## Concrete states used by the theorems -/

/-- A consumer whose `resolutionScalings` is not non-increasing (the store
field is populated from the producer's `appData` and such values arise from
`getResolutionScalings` when `scaleResolutionDownBy` values are given in
increasing order). -/
def cNonMonotone : ConsumerInfo :=
  ⟨"c7", "simulcast", 1, 2, 1000, 1000, [1, 4], 3⟩

/-- The consumer of the claim's worked example: `width = 1280`,
`height = 720`, `resolutionScalings = [4, 2, 1]`, three temporal layers,
current preferred layers `(2, 2)`. -/
def cExample : ConsumerInfo :=
  ⟨"cx", "simulcast", 2, 2, 1280, 720, [4, 2, 1], 3⟩

/-- As `cExample` but with the preferred layers already at the value the
adaptation would choose for a 320 by 180 viewport. -/
def cExampleSettled : ConsumerInfo :=
  ⟨"cy", "simulcast", 0, 2, 1280, 720, [4, 2, 1], 3⟩

/-- A connected, non-closed client with media up. -/
def cConnected : ClientState where
  closed := false
  socketClosed := false
  micProducer := some "mp"
  webcamProducer := some "wp"
  screenSharingProducer := none
  extraVideoProducers := ["ep"]
  sendTransport := some ⟨"st", false⟩
  recvTransport := some ⟨"rt", false⟩
  storeProducers := ["mp", "wp", "ep"]
  storePeers := ["p1", "p2"]
  storeConsumerIds := ["c1"]
  spotlights := ["p1"]
  roomState := "connected"
  notifications := []
  navigationRequested := false

/-- A client on which `close()` has already run. -/
def cAlreadyClosed : ClientState where
  closed := true
  socketClosed := true
  micProducer := none
  webcamProducer := none
  screenSharingProducer := none
  extraVideoProducers := []
  sendTransport := some ⟨"st", true⟩
  recvTransport := some ⟨"rt", true⟩
  storeProducers := []
  storePeers := []
  storeConsumerIds := []
  spotlights := []
  roomState := "closed"
  notifications := []
  navigationRequested := true

/-- A registry in which the spotlight invariant holds: one resumed video
consumer whose peer is spotlighted. -/
def regSpot : RegistryState :=
  ⟨[⟨"c1", "p1", "video", "webcam", false, false⟩], ["p1"], []⟩

/-- A registry with two video consumers and one audio consumer, all resumed,
and two spotlighted peers. -/
def regW : RegistryState :=
  ⟨[⟨"c1", "p1", "video", "webcam", false, false⟩,
    ⟨"c2", "p2", "video", "webcam", false, false⟩,
    ⟨"c3", "p1", "audio", "mic", false, false⟩], ["p1", "p2"], []⟩

/-- The ICE controller at rest: `_sendRestartIce = (timer: null, restarting: false)`. -/
def iceStart : IceState := ⟨0, none, false, none, []⟩

/-- After `restartIce(transport, ice, 2000)` at time 0 and the timer firing:
the first `restartIce` request is in flight, issued at 2000 ms. -/
def iceAfterFirstFire : IceState := fireTimer (callRestartIce iceStart 2000)

/-- The in-flight restart fails immediately (at 2000 ms). -/
def iceAfterFailure : IceState := settleRestart iceAfterFirstFire 0 false

/-- Both subsequent timers fire: the catch-branch callback at 4000 ms
re-invokes `restartIce` with delay 4000, whose attempt issues the second
request. -/
def iceAfterSecondRequest : IceState := fireTimer (fireTimer iceAfterFailure)

/-- An ICE controller with a restart in flight and a stale attempt timer
about to fire. -/
def iceBusy : IceState := ⟨2000, some (2500, .attempt 2000), true, some 2000, [2000]⟩

/-- An environment whose device cannot produce audio. -/
def micEnvNoCap : MicEnv := ⟨false, some "dev-default", some "track0", some ⟨"newProd", false⟩⟩

/-- A fully functional audio environment. -/
def micEnvOk : MicEnv := ⟨true, some "dev-default", some "track0", some ⟨"newProd", false⟩⟩

/-- An existing, unpaused mic producer. -/
def micP0 : MicProducer := ⟨"mic0", false⟩

/-- A state with `micP0` as the current mic producer. -/
def muteS0 : MuteState := ⟨some micP0, false⟩

/-- The adaptation procedure as the amended claim words it: identical to
`adaptConsumerPreferredLayers` except that the new preferred spatial layer
is stated directly as the index of the last level of the longest reached
leading segment of `resolutionScalings`. -/
def adaptClaimedAmended (cfg : Option ℚ) (c : ConsumerInfo) (vw vh : ℚ) :
    Option LayersRequest :=
  if c.type = "simple" then none
  else
    let F := adaptiveScalingFactor cfg
    let s := leadingReachedIndex F c.width c.height vw vh c.resolutionScalings
    let t := chooseTemporal s c.temporalLayers c.width c.height vw vh
      c.resolutionScalings
    if c.preferredSpatialLayer ≠ (s : ℤ) ∨ c.preferredTemporalLayer ≠ t then
      some ⟨c.id, s, t⟩
    else none

/-! ## Theorems -/

/-- C1: when every attempt times out, `sendRequest` does not reject — after
`requestRetries = 3` timed-out attempts the retry loop exits and the promise
RESOLVES with `undefined` (the `else throw` branch is unreachable for
timeouts because its guard `tries < config.requestRetries` always holds
inside the loop).  The other parts of the claim do hold: a non-timeout error
on the first attempt propagates immediately after one attempt, and a timeout
followed by a success retries exactly once and resolves with the response. -/
theorem sendRequest_all_timeouts_resolves_undefined :
    sendRequest 3 (fun _ => AttemptOutcome.timeout (α := Unit)) =
      (.resolved none, 3) ∧
    sendRequest 3 (fun _ => AttemptOutcome.failure (α := Unit) "server err") =
      (.rejectedError "server err", 1) ∧
    sendRequest 3 (fun i => if i = 0 then AttemptOutcome.timeout
      else AttemptOutcome.success ()) = (.resolved (some ()), 2) := by
  decide

/-- C2: in a connected state, a `disconnect` with reason
`io server disconnect` does run `close()` (the closed flag is set, the
navigation is requested), but the handler continues past it: it emits the
`socket.reconnecting` notification, tears everything down and finally
dispatches room state `connecting` — so the store does not end in the
terminal `closed` state the claim requires.  For any other reason
(here `transport error`) the handler behaves as the claim states: producers,
transports, spotlights, peers and consumers are torn down and the room state
ends at `connecting` without closing the client. -/
theorem disconnect_io_server_ends_connecting :
    (onDisconnect cConnected "io server disconnect").closed = true ∧
    (onDisconnect cConnected "io server disconnect").navigationRequested = true ∧
    (onDisconnect cConnected "io server disconnect").roomState = "connecting" ∧
    (onDisconnect cConnected "io server disconnect").roomState ≠ "closed" ∧
    (onDisconnect cConnected "io server disconnect").notifications =
      ["socket.disconnected", "socket.reconnecting"] ∧
    (onDisconnect cConnected "transport error").closed = false ∧
    (onDisconnect cConnected "transport error").roomState = "connecting" ∧
    (onDisconnect cConnected "transport error").micProducer = none ∧
    (onDisconnect cConnected "transport error").webcamProducer = none ∧
    (onDisconnect cConnected "transport error").extraVideoProducers = [] ∧
    (onDisconnect cConnected "transport error").sendTransport = none ∧
    (onDisconnect cConnected "transport error").recvTransport = none ∧
    (onDisconnect cConnected "transport error").spotlights = [] ∧
    (onDisconnect cConnected "transport error").storePeers = [] ∧
    (onDisconnect cConnected "transport error").storeConsumerIds = [] := by
  decide

/-- C6: `getResolutionScalings` computes exactly what the claim states —
singleton encodings yield the SVC powers of two for the parsed spatial-layer
count, simulcast encodings yield the clamped `scaleResolutionDownBy` values
(undefined entries becoming 1) when at least one is defined and the powers
of two when none is — and the three worked examples of the claim hold. -/
theorem getResolutionScalings_matches_claim :
    (∀ encodings, getResolutionScalings encodings =
      resolutionScalingsClaimed encodings) ∧
    getResolutionScalings [{ scalabilityMode := some "S3T3_KEY" }] = [4, 2, 1] ∧
    getResolutionScalings [{}, {}, {}] = [4, 2, 1] ∧
    getResolutionScalings [{ scaleResolutionDownBy := some (1/2) }, {}] = [1, 1] := by
  refine ⟨?_, ?_, ?_, ?_⟩
  · intro encodings
    match encodings with
    | [] => rfl
    | [e] => rfl
    | e1 :: e2 :: rest =>
      simp only [getResolutionScalings, resolutionScalingsClaimed]
      cases h : (e1 :: e2 :: rest).any (fun e => e.scaleResolutionDownBy.isSome) <;>
        simp [h]
  · norm_num [getResolutionScalings,
      show parseScalabilityMode (some "S3T3_KEY") = ⟨3, 3⟩ from by decide,
      List.range_succ]
  · norm_num [getResolutionScalings, List.range_succ]
  · norm_num [getResolutionScalings]

/-- C10: `close()` is idempotent.  The first call on a non-closed client
sets the closed flag, closes the signaling socket and both present
transports and dispatches room state `closed`; a second `close()` returns
the state unchanged, a `close()` on an already closed client is the
identity, and a signaling `disconnect` event arriving after `close()` (for
every reason) returns immediately without any state change. -/
theorem close_idempotent (s : ClientState) (reason : String) :
    (s.closed = false →
      (close s).closed = true ∧ (close s).socketClosed = true ∧
      (close s).sendTransport =
        s.sendTransport.map (fun t => { t with closed := true }) ∧
      (close s).recvTransport =
        s.recvTransport.map (fun t => { t with closed := true }) ∧
      (close s).roomState = "closed") ∧
    close (close s) = close s ∧
    (s.closed = true → close s = s) ∧
    onDisconnect (close s) reason = close s := by
  unfold close onDisconnect
  by_cases h : s.closed <;> simp [h]

/-- Witness for C10 at a connected client and at an already closed one. -/
theorem close_idempotent_witness :
    cConnected.closed = false ∧ (close cConnected).roomState = "closed" ∧
    cAlreadyClosed.closed = true ∧ close cAlreadyClosed = cAlreadyClosed :=
  ⟨rfl, ((close_idempotent cConnected "transport error").1 rfl).2.2.2.2,
   rfl, (close_idempotent cAlreadyClosed "transport error").2.2.1 rfl⟩

/-- C3 counterexample: from a state satisfying the claimed invariant (one
resumed video consumer whose peer is spotlighted),
`modifyPeerConsumer(p1, webcam, mute = true)` — e.g. the handler of a
`moderator:stopVideo` command — pauses the consumer locally although `p1`
stays in the spotlights, so the invariant `locallyPaused = true` iff
`peerId` not in spotlights does not hold at every point between
operations. -/
theorem modifyPeerConsumer_breaks_spotlight_iff :
    (∀ c ∈ regSpot.consumers, c.kind = "video" →
      (c.locallyPaused = true ↔ c.peerId ∉ regSpot.spotlights)) ∧
    (modifyPeerConsumer regSpot "p1" "webcam" true).consumers =
      [⟨"c1", "p1", "video", "webcam", true, true⟩] ∧
    (modifyPeerConsumer regSpot "p1" "webcam" true).spotlights = ["p1"] ∧
    ¬ (∀ c ∈ (modifyPeerConsumer regSpot "p1" "webcam" true).consumers,
        c.kind = "video" →
        (c.locallyPaused = true ↔
          c.peerId ∉ (modifyPeerConsumer regSpot "p1" "webcam" true).spotlights)) := by
  decide

/-- C3 (amended): the invariant is established by every `updateSpotlights`
run — after it, every video consumer is locally paused exactly when its peer
is outside the new spotlights — provided the mediasoup consumer's `paused`
flag agrees with the store's `locallyPaused` beforehand (which holds on the
success path); between operations an explicit local pause such as
`modifyPeerConsumer` may break the pure iff, as the spec's disjunction
formulation allows. -/
theorem updateSpotlights_video_locallyPaused_iff (s : RegistryState)
    (sl : List String)
    (hsync : ∀ c ∈ s.consumers, c.paused = c.locallyPaused) :
    ∀ c ∈ (updateSpotlights s sl).consumers, c.kind = "video" →
      (c.locallyPaused = true ↔
        c.peerId ∉ (updateSpotlights s sl).spotlights) := by
  intro c hc hkind
  have hsl : (updateSpotlights s sl).spotlights = sl := rfl
  rw [hsl]
  simp only [updateSpotlights, List.mem_map] at hc
  obtain ⟨c0, hc0, rfl⟩ := hc
  have hs := hsync c0 hc0
  by_cases hk : c0.kind = "video"
  · simp only [hk, if_true] at hkind ⊢
    by_cases hmem : c0.peerId ∈ sl
    · simp only [hmem, if_true] at hkind ⊢
      unfold resumeConsumerOp
      by_cases hp : c0.paused
      · simp [hp, hmem]
      · simp only [hp, Bool.not_false, if_true]
        have : c0.locallyPaused = false := by
          rw [← hs]; exact Bool.not_eq_true _ ▸ hp
        simp [this, hmem]
    · simp only [hmem, if_false] at hkind ⊢
      unfold pauseConsumerOp
      by_cases hp : c0.paused
      · have : c0.locallyPaused = true := by rw [← hs]; exact hp
        simp [hp, this, hmem]
      · simp [hp, hmem]
  · simp only [hk, if_false] at hkind ⊢

/-- Witness for C3 at a registry with two spotlighted video consumers, of
which only `p1` stays spotlighted. -/
theorem updateSpotlights_video_locallyPaused_iff_witness :
    (∀ c ∈ regW.consumers, c.paused = c.locallyPaused) ∧
    (∀ c ∈ (updateSpotlights regW ["p1"]).consumers, c.kind = "video" →
      (c.locallyPaused = true ↔
        c.peerId ∉ (updateSpotlights regW ["p1"]).spotlights)) :=
  ⟨by decide, updateSpotlights_video_locallyPaused_iff regW ["p1"] (by decide)⟩

/-- C4 counterexample: with the initial delay of 2000 ms, the first restart
attempt fires and issues its request at 2000 ms; when it fails immediately
(at 2000 ms) the next `restartIce` request to the SFU is issued at 8000 ms —
6000 ms after the failure, not the 4000 ms the claim states, because the
catch branch waits `delay` ms before re-invoking the routine, which itself
waits another `delay * 2` ms. -/
theorem restartIce_next_request_not_4s_after_failure :
    iceAfterFirstFire.requests = [2000] ∧
    iceAfterFailure.now = 2000 ∧
    iceAfterFailure.restarting = false ∧
    iceAfterSecondRequest.requests = [2000, 8000] ∧
    2000 + 4000 ≠ 8000 := by
  decide

/-- C4 (amended): when a restart attempt with delay parameter `d` fails, the
`restarting` flag is cleared and a timer is set which after `d` ms re-invokes
the restart routine with delay `d * 2`; that re-invocation schedules its
attempt `d * 2` ms later, so the next `restartIce` request to the SFU is
issued `3 * d` ms after the failure — 6 s for the initial 2 s delay. -/
theorem restartIce_failure_reschedule (s : IceState) (d : ℕ)
    (hp : s.pendingDelay = some d) :
    (settleRestart s 0 false).restarting = false ∧
    (settleRestart s 0 false).timer = some (s.now + d, .rescheduleCall d) ∧
    (fireTimer (settleRestart s 0 false)).timer =
      some (s.now + d + d * 2, .attempt (d * 2)) ∧
    (fireTimer (fireTimer (settleRestart s 0 false))).requests =
      s.requests ++ [s.now + d + d * 2] := by
  unfold settleRestart fireTimer callRestartIce
  simp [hp]

/-- Witness for C4 at the first failing restart attempt of the concrete
run. -/
theorem restartIce_failure_reschedule_witness :
    iceAfterFirstFire.pendingDelay = some 2000 ∧
    (settleRestart iceAfterFirstFire 0 false).restarting = false ∧
    (fireTimer (fireTimer (settleRestart iceAfterFirstFire 0 false))).requests =
      iceAfterFirstFire.requests ++ [iceAfterFirstFire.now + 2000 + 2000 * 2] :=
  ⟨by decide,
   (restartIce_failure_reschedule iceAfterFirstFire 2000 (by decide)).1,
   (restartIce_failure_reschedule iceAfterFirstFire 2000 (by decide)).2.2.2⟩

/-- C5: at most one ICE restart is in flight per transport.  An attempt
timer that fires while `ice.restarting` is true returns without issuing a
request; when the flag is clear, the firing attempt sets the flag in the
same step in which the request is issued; settling an in-flight restart
(success or failure) clears the flag; the property that the flag covers
every in-flight request is preserved by every event, and consequently no
timer firing while a request is in flight issues a second one. -/
theorem restartIce_single_flight (s : IceState) (t d e : ℕ) (ok : Bool) :
    (s.timer = some (t, .attempt d) → s.restarting = true →
      fireTimer s = { s with now := t, timer := none }) ∧
    (s.timer = some (t, .attempt d) → s.restarting = false →
      (fireTimer s).now = t ∧ (fireTimer s).timer = none ∧
      (fireTimer s).restarting = true ∧
      (fireTimer s).requests = s.requests ++ [t] ∧
      (fireTimer s).pendingDelay = some d) ∧
    (s.pendingDelay = some d →
      (settleRestart s e ok).restarting = false ∧
      (settleRestart s e ok).pendingDelay = none) ∧
    (FlagCovers s → FlagCovers (callRestartIce s d) ∧ FlagCovers (fireTimer s) ∧
      FlagCovers (settleRestart s e ok)) ∧
    (FlagCovers s → s.pendingDelay.isSome →
      (fireTimer s).requests = s.requests) := by
  refine ⟨?_, ?_, ?_, ?_, ?_⟩
  · intro ht hr
    simp [fireTimer, ht, hr]
  · intro ht hr
    refine ⟨?_, ?_, ?_, ?_, ?_⟩ <;> simp [fireTimer, ht, hr]
  · intro hp
    constructor <;> cases ok <;> simp [settleRestart, hp]
  · intro hcov
    refine ⟨hcov, ?_, ?_⟩
    · intro hp
      rcases htm : s.timer with _ | ⟨t', task⟩
      · simp only [fireTimer, htm] at hp ⊢
        exact hcov hp
      · rcases task with d' | d'
        · simp only [fireTimer, htm] at hp ⊢
          by_cases hr : s.restarting = true
          · rw [if_pos hr]; exact hr
          · rw [if_neg hr]
        · simp only [fireTimer, htm, callRestartIce] at hp ⊢
          exact hcov hp
    · intro hp
      rcases hps : s.pendingDelay with _ | d'
      · simp only [settleRestart, hps] at hp ⊢
        simp at hp
      · cases ok <;> simp [settleRestart, hps] at hp
  · intro hcov hp
    have hr : s.restarting = true := hcov hp
    rcases htm : s.timer with _ | ⟨t', task⟩
    · simp [fireTimer, htm]
    · rcases task with d' | d'
      · simp [fireTimer, htm, hr]
      · simp [fireTimer, htm, callRestartIce]

/-- Witness for C5 at a controller with a restart in flight and a stale
attempt timer. -/
theorem restartIce_single_flight_witness :
    FlagCovers iceBusy ∧ iceBusy.pendingDelay.isSome = true ∧
    (fireTimer iceBusy).requests = iceBusy.requests ∧
    fireTimer iceBusy = { iceBusy with now := 2500, timer := none } :=
  ⟨by decide, by decide,
   (restartIce_single_flight iceBusy 2500 2000 0 true).2.2.2.2 (by decide)
     (by decide),
   (restartIce_single_flight iceBusy 2500 2000 0 true).1 rfl rfl⟩

/-- The spatial-layer loop computes the index of the last level of the
longest reached leading segment: starting at next index `i` with recorded
value `cur`, it returns `cur` when no leading level is reached and
`i + k - 1` when the first `k > 0` levels are reached. -/
theorem chooseSpatialLoop_takeWhile (F w h vw vh : ℚ) :
    ∀ (rs : List ℚ) (i cur : Nat),
      chooseSpatialLoop F w h vw vh rs i cur =
        (if (rs.takeWhile (fun r => decide (levelReached F w h vw vh r))).length
            = 0 then cur
         else i +
           (rs.takeWhile (fun r => decide (levelReached F w h vw vh r))).length
           - 1) := by
  intro rs
  induction rs with
  | nil => intro i cur; simp [chooseSpatialLoop]
  | cons r rest ih =>
    intro i cur
    by_cases hc : levelReached F w h vw vh r
    · simp only [chooseSpatialLoop]
      rw [if_pos hc, ih (i + 1) i]
      have htw : (r :: rest).takeWhile
            (fun r => decide (levelReached F w h vw vh r)) =
          r :: rest.takeWhile (fun r => decide (levelReached F w h vw vh r)) := by
        simp [List.takeWhile_cons, hc]
      rw [htw]
      simp only [List.length_cons]
      rcases Nat.eq_zero_or_pos ((rest.takeWhile
          (fun r => decide (levelReached F w h vw vh r))).length) with hk | hk
      · rw [if_pos hk, if_neg (by omega)]
        omega
      · rw [if_neg (by omega), if_neg (by omega)]
        omega
    · simp only [chooseSpatialLoop]
      rw [if_neg hc]
      have htw : (r :: rest).takeWhile
            (fun r => decide (levelReached F w h vw vh r)) = [] := by
        simp [List.takeWhile_cons, hc]
      rw [htw]
      simp

/-- C7 counterexample: for the non-simple consumer `cNonMonotone`
(`width = height = 1000`, `resolutionScalings = [1, 4]`, current preferred
layers `(1, 2)`) and viewport 300 by 300 with the default factor 0.75, the
largest index whose level the viewport reaches is 1 (since
`300 ≥ 0.75·1000/4`), but `adaptConsumerPreferredLayers` breaks out of its
loop at index 0 (where `300 < 750`) and issues a request with spatial layer
0 — not the largest satisfying index the claim states. -/
theorem adaptConsumer_not_largest_reached :
    adaptConsumerPreferredLayers none cNonMonotone 300 300 =
      some ⟨"c7", 0, 1⟩ ∧
    largestReachedIndex (adaptiveScalingFactor none) 1000 1000 300 300 [1, 4]
      = 1 := by
  constructor
  · norm_num [adaptConsumerPreferredLayers, cNonMonotone, chooseSpatialLoop,
      chooseTemporal, adaptiveScalingFactor, levelReached]
    intro hcontra
    exact absurd hcontra (by decide)
  · norm_num [largestReachedIndex, adaptiveScalingFactor, levelReached,
      List.range_succ]

/-- C7 (amended): for every non-simple consumer and positive viewport,
`adaptConsumerPreferredLayers` behaves as the amended claim states — the new
preferred spatial layer is the last index of the longest reached leading
segment of `resolutionScalings` (which coincides with the largest satisfying
index whenever `resolutionScalings` is non-increasing, as for all values
produced by `getResolutionScalings` without explicit
`scaleResolutionDownBy`), and the `setConsumerPreferedLayers` request is
issued iff the chosen pair differs from the current preferred layers;
`simple` consumers are a no-op.  On the claim's worked example (width 1280,
height 720, scalings `[4, 2, 1]`, viewport 320 by 180, factor 0.75) the
chosen layers are spatial 0 and temporal `temporalLayers - 1 = 2`, and no
request is issued when the preferred layers already are `(0, 2)`. -/
theorem adaptConsumer_leading_selection (cfg : Option ℚ) (c : ConsumerInfo)
    (vw vh : ℚ) (hvw : 0 < vw) (hvh : 0 < vh) :
    adaptConsumerPreferredLayers cfg c vw vh = adaptClaimedAmended cfg c vw vh ∧
    (c.type = "simple" → adaptConsumerPreferredLayers cfg c vw vh = none) ∧
    adaptConsumerPreferredLayers none cExample 320 180 = some ⟨"cx", 0, 2⟩ ∧
    adaptConsumerPreferredLayers none cExampleSettled 320 180 = none := by
  refine ⟨?_, ?_, ?_, ?_⟩
  · unfold adaptConsumerPreferredLayers adaptClaimedAmended
    have hvz : ¬(vw = 0 ∨ vh = 0) := by
      push_neg
      exact ⟨ne_of_gt hvw, ne_of_gt hvh⟩
    by_cases ht : c.type = "simple"
    · simp [ht]
    · rw [if_neg ht, if_neg ht, if_neg hvz]
      have hs : chooseSpatialLoop (adaptiveScalingFactor cfg) c.width c.height
          vw vh c.resolutionScalings 0 0 =
          leadingReachedIndex (adaptiveScalingFactor cfg) c.width c.height
            vw vh c.resolutionScalings := by
        rw [chooseSpatialLoop_takeWhile]
        unfold leadingReachedIndex
        cases hk : (c.resolutionScalings.takeWhile
            (fun r => decide (levelReached (adaptiveScalingFactor cfg)
              c.width c.height vw vh r))).length with
        | zero => simp
        | succ n => simp
      simp only [hs]
  · intro ht
    simp [adaptConsumerPreferredLayers, ht]
  · norm_num [adaptConsumerPreferredLayers, cExample, chooseSpatialLoop,
      chooseTemporal, adaptiveScalingFactor, levelReached]
    intro hcontra
    exact absurd hcontra (by decide)
  · norm_num [adaptConsumerPreferredLayers, cExampleSettled, chooseSpatialLoop,
      chooseTemporal, adaptiveScalingFactor, levelReached]

/-- Witness for C7 at the claim's worked example. -/
theorem adaptConsumer_leading_selection_witness :
    (0 : ℚ) < 320 ∧ (0 : ℚ) < 180 ∧
    adaptConsumerPreferredLayers none cExample 320 180 =
      adaptClaimedAmended none cExample 320 180 :=
  ⟨by norm_num, by norm_num,
   (adaptConsumer_leading_selection none cExample 320 180 (by norm_num)
     (by norm_num)).1⟩

/-- C8 counterexample: when the device cannot produce audio,
`updateMic({newDeviceId, restart: false})` fails with `cannot produce audio`
rather than `changing device requires restart` (though it equally leaves the
existing producer untouched). -/
theorem updateMic_cannotProduce_message :
    (updateMic micEnvNoCap false false (some "dev2") (some micP0)).2.2 =
      some "cannot produce audio" ∧
    (updateMic micEnvNoCap false false (some "dev2") (some micP0)).2.2 ≠
      some "changing device requires restart" ∧
    (updateMic micEnvNoCap false false (some "dev2") (some micP0)).1 =
      some micP0 := by
  decide

/-- C8 (amended): when the device can produce audio, every
`updateMic({newDeviceId: d, restart: false})` call (with the default
`start = false`) fails with `changing device requires restart`; the error is
caught at the boundary and surfaced as the `devices.microphoneError`
notification, nothing is thrown to the caller, and the only other recorded
effect is the trailing `setAudioInProgress(false)` — in particular no
`getUserMedia`, no `produce` and no `disableMic` happen, and the existing
mic producer (whatever it is) is unchanged.  A non-null device id is a
non-empty string (the empty string is falsy in the source's
`newDeviceId && !restart` test). -/
theorem updateMic_newDevice_requires_restart (env : MicEnv)
    (mic : Option MicProducer) (d : String) (hd : d ≠ "")
    (hcap : env.canProduceAudio = true) :
    updateMic env false false (some d) mic =
      (mic, [MicAction.notifyError "devices.microphoneError",
             MicAction.setAudioInProgress false],
       some "changing device requires restart") := by
  unfold updateMic updateMicTry
  simp [hcap, hd]

/-- Witness for C8 in the fully functional environment with an existing
producer. -/
theorem updateMic_newDevice_requires_restart_witness :
    "dev2" ≠ "" ∧ micEnvOk.canProduceAudio = true ∧
    updateMic micEnvOk false false (some "dev2") (some micP0) =
      (some micP0, [MicAction.notifyError "devices.microphoneError",
                    MicAction.setAudioInProgress false],
       some "changing device requires restart") :=
  ⟨by decide, rfl,
   updateMic_newDevice_requires_restart micEnvOk (some micP0) "dev2"
     (by decide) rfl⟩

/-- C9: from any state with a mic producer, `muteMic()` followed by
`unmuteMic()` — whatever the outcomes of the two signaling requests — leaves
the very same producer in the resumed (unpaused) state; neither operation
delegates to `updateMic({start: true})`, and `unmuteMic` delegates exactly
when no mic producer exists. -/
theorem mute_unmute_roundtrip (s : MuteState) (p : MicProducer)
    (ok1 ok2 : Bool) (hp : s.micProducer = some p) :
    (unmuteMic ok2 (muteMic ok1 s).1).1.micProducer =
      some { p with paused := false } ∧
    MuteAction.callUpdateMicStart ∉ (muteMic ok1 s).2 ∧
    MuteAction.callUpdateMicStart ∉ (unmuteMic ok2 (muteMic ok1 s).1).2 ∧
    (∀ t : MuteState, t.micProducer = none →
      unmuteMic ok2 t = (t, [MuteAction.callUpdateMicStart])) ∧
    (∀ (t : MuteState) (q : MicProducer), t.micProducer = some q →
      MuteAction.callUpdateMicStart ∉ (unmuteMic ok2 t).2) := by
  refine ⟨?_, ?_, ?_, ?_, ?_⟩
  · cases ok1 <;> cases ok2 <;> simp [muteMic, unmuteMic, hp]
  · cases ok1 <;> simp [muteMic, hp]
  · cases ok1 <;> cases ok2 <;> simp [muteMic, unmuteMic, hp]
  · intro t hnone
    simp [unmuteMic, hnone]
  · intro t q hq
    cases ok2 <;> simp [unmuteMic, hq]

/-- Witness for C9 at a state holding the unpaused producer `micP0`, with
both requests succeeding. -/
theorem mute_unmute_roundtrip_witness :
    muteS0.micProducer = some micP0 ∧
    (unmuteMic true (muteMic true muteS0).1).1.micProducer = some micP0 :=
  ⟨rfl, (mute_unmute_roundtrip muteS0 micP0 true true rfl).1⟩

end RoomClient
